import Mathlib

/-!
Shallow embedding of the document-intake service
(`app/api/v1/documents/routes.py` together with the data model of
`app/db/models.py` and the session handling of `app/db/database.py`).

Modelling conventions:
* Uploaded byte content is a `List UInt8`.
* The blob store (the local `storage` directory) is a list of path/data
  pairs; `open(path, "wb")` truncates an existing file, which is modelled
  by removing any blob at the same path before appending the new one.
* The metadata repository is the list of committed `Document` rows in
  insertion order, plus the id sequence counter.  `db.add`/`db.flush`
  place a row in the request-scoped session (`pending`); only
  `db.commit()` moves pending rows into the committed table.  When a
  handler raises `HTTPException`, `get_db`'s `async with` closes the
  session without committing, rolling pending rows back, while bytes
  already written to disk stay, and the id sequence does not rewind.
* `datetime.utcnow().timestamp()` is modelled by an ambient clock
  `Nat → String` giving the timestamp string of the n-th clock reading
  of the request; `datetime.utcnow()` for the row default is a second
  clock `Nat → Nat`.  Nothing is assumed about either clock.
* Python evaluates `len(contents) / (1024 * 1024)` in double precision;
  division by 2^20 is exact for any length below 2^53, so the exact
  rational value is a faithful model in that range, and `"%.2f"`
  formatting is round-half-even to hundredths of that value.
-/

namespace DocPipeline

abbrev Bytes := List UInt8

/-- A multipart file of the upload request (FastAPI `UploadFile`). -/
structure UploadFile where
  filename : String
  content_type : String
  contents : Bytes
deriving Repr, DecidableEq

/-- Row of the `documents` table (`app/db/models.py`). -/
structure Document where
  id : Nat
  original_filename : String
  stored_path : String
  uploaded_at : Nat
deriving Repr, DecidableEq

/-- One file of the `storage` directory. -/
structure Blob where
  path : String
  data : Bytes
deriving Repr, DecidableEq

/-- An `HTTPException` raised by a route handler. -/
structure HttpError where
  status : Nat
  detail : String
deriving Repr, DecidableEq

/-- Durable server state: committed rows (in insertion order), the
`storage` directory, and the id sequence of the `documents` table. -/
structure ServerState where
  committed : List Document
  disk : List Blob
  nextId : Nat
deriving Repr, DecidableEq

/-- Response schema `DocumentOut` (`schemas.py`). -/
structure DocumentOut where
  id : Nat
  original_filename : String
  stored_path : String
  uploaded_at : Nat
deriving Repr, DecidableEq

/-- Response schema `UploadResult` (`schemas.py`). -/
structure UploadResult where
  uploaded_ids : List Nat
  count : Nat
deriving Repr, DecidableEq

def MAX_FILE_SIZE_MB : Nat := 20

def ALLOWED_CONTENT_TYPES : List String := ["application/pdf"]

/-- Model of `STORAGE_DIR / f"{ts}_{filename}"` rendered as a string
(`str(file_path)` is stored in the row). -/
def genStoredPath (ts : String) (filename : String) : String :=
  "storage/" ++ ts ++ "_" ++ filename

/-- Model of `with file_path.open("wb") as buffer: buffer.write(contents)`:
truncating write: any previous file at the same path is replaced. -/
def putBlob (disk : List Blob) (path : String) (data : Bytes) : List Blob :=
  disk.filter (fun b => b.path != path) ++ [⟨path, data⟩]

/-- Reading the file at `path`, `none` when `path.is_file()` is false. -/
def getBlob (disk : List Blob) (path : String) : Option Bytes :=
  (disk.find? (fun b => b.path == path)).map Blob.data

/-- Model of `size_mb = len(contents) / (1024 * 1024)` (exact value of the
double-precision quotient for lengths below 2^53). -/
def fileSizeMB (size : Nat) : Rat := (size : Rat) / (1024 * 1024)

/-- Round-half-even to the nearest integer, as `"%.2f"` rounding does on
the scaled value (inputs here are nonnegative). -/
def roundHalfEven (q : Rat) : Int :=
  let f : Int := q.num.fdiv (q.den : Int)
  let r : Rat := q - (f : Rat)
  if 1 / 2 < r then f + 1
  else if r < 1 / 2 then f
  else if f % 2 = 0 then f else f + 1

def pad2 (n : Nat) : String :=
  if n < 10 then "0" ++ toString n else toString n

/-- Python's `f"{q:.2f}"` for nonnegative `q`. -/
def fmt2 (q : Rat) : String :=
  let c : Nat := (roundHalfEven (q * 100)).toNat
  toString (c / 100) ++ "." ++ pad2 (c % 100)

/-- Lines 35–51 of `routes.py`: the per-file validation (content-type
allowlist, then size ceiling), returning the `HTTPException` raised on
rejection, `none` on acceptance. -/
def validateFile (maxMB : Nat) (allowed : List String) (f : UploadFile) :
    Option HttpError :=
  if f.content_type ∉ allowed then
    some ⟨400, "Unsupported file type: " ++ f.content_type ++
      ". Only PDF is allowed."⟩
  else
    let size_mb : Rat := fileSizeMB f.contents.length
    if (maxMB : Rat) < size_mb then
      some ⟨400, "File " ++ f.filename ++ " is too large (" ++
        fmt2 size_mb ++ " MB). Max allowed is " ++ toString maxMB ++ " MB."⟩
    else none

/-- Result of the `for file in files` loop of `upload_documents`: the
state of the disk, the request session (`pending`, flushed rows), the id
sequence and `saved_ids` when the loop left off, plus the
`HTTPException` that interrupted it, if any. -/
structure LoopOut where
  disk : List Blob
  pending : List Document
  nextId : Nat
  saved_ids : List Nat
  err : Option HttpError
deriving Repr, DecidableEq

/-- Lines 34–65 of `routes.py`: validate each file in order; on pass,
write the blob at `storage/{utcnow().timestamp()}_{filename}` and flush
a `Document` row (which draws the next id from the sequence); on the
first failure stop with the exception. `clock idx` is the string of the
idx-th `datetime.utcnow().timestamp()` reading of the request and
`rowClock idx` the row's `uploaded_at` default drawn at the flush. -/
def uploadLoop (maxMB : Nat) (allowed : List String)
    (clock : Nat → String) (rowClock : Nat → Nat) (idx : Nat)
    (files : List UploadFile) (disk : List Blob) (pending : List Document)
    (nextId : Nat) (saved : List Nat) : LoopOut :=
  match files with
  | [] => ⟨disk, pending, nextId, saved, none⟩
  | f :: rest =>
    match validateFile maxMB allowed f with
    | some e => ⟨disk, pending, nextId, saved, some e⟩
    | none =>
      let path := genStoredPath (clock idx) f.filename
      uploadLoop maxMB allowed clock rowClock (idx + 1) rest
        (putBlob disk path f.contents)
        (pending ++ [⟨nextId, f.filename, path, rowClock idx⟩])
        (nextId + 1) (saved ++ [nextId])

/-- Route `POST /documents/upload` (lines 22–69 of `routes.py`).  Returns the
response and the durable state after the request: on success the one
`db.commit()` appends the session's pending rows to the committed table;
on an `HTTPException` the session is closed without commit, so pending
rows are rolled back while blobs already written stay on disk and the id
sequence keeps its advanced value. -/
def upload_documents (clock : Nat → String) (rowClock : Nat → Nat)
    (files : List UploadFile) (st : ServerState) :
    Except HttpError UploadResult × ServerState :=
  if files.isEmpty then
    (.error ⟨400, "No files uploaded"⟩, st)
  else
    let out := uploadLoop MAX_FILE_SIZE_MB ALLOWED_CONTENT_TYPES clock
      rowClock 0 files st.disk [] st.nextId []
    match out.err with
    | some e => (.error e, ⟨st.committed, out.disk, out.nextId⟩)
    | none =>
      (.ok ⟨out.saved_ids, out.saved_ids.length⟩,
        ⟨st.committed ++ out.pending, out.disk, out.nextId⟩)

/-- Model of `await db.execute(select(Document))` restricted to the row
CONTENTS: the committed table, enumerated here in the model's canonical
order (the append order of `upload_documents`).  The query itself
(line 77 of `routes.py`) has no ORDER BY, so the database gives no
guarantee about the order in which it serves these rows; that ordering
freedom is captured by `dbMayServe` below, and the listing under an
arbitrary admissible serve order by `list_documents_served`. -/
def selectDocuments (st : ServerState) : List Document :=
  st.committed

/-- Model of `DocumentOut.model_validate`: copy the row's fields. -/
def DocumentOut.ofDocument (d : Document) : DocumentOut :=
  ⟨d.id, d.original_filename, d.stored_path, d.uploaded_at⟩

/-- Route `GET /documents/` (lines 73–79 of `routes.py`), under the
model's canonical enumeration of the table.  The order actually served
by the ORDER-BY-less query is unconstrained; see `dbMayServe` and
`list_documents_served`. -/
def list_documents (st : ServerState) : List DocumentOut :=
  (selectDocuments st).map DocumentOut.ofDocument

/-- Ordering freedom of `select(Document)` without ORDER BY (line 77 of
`routes.py`): the database may serve the committed rows in any order, so
a row sequence is an admissible query response exactly when it is a
permutation of the committed table. -/
def dbMayServe (st : ServerState) (rows : List Document) : Prop :=
  List.Perm rows st.committed

/-- The response of `GET /documents/` when the database serves the rows
in the order `rows`: `DocumentOut.model_validate` applied to each served
row (line 79 of `routes.py`). -/
def list_documents_served (rows : List Document) : List DocumentOut :=
  rows.map DocumentOut.ofDocument

/-- Model of `select(Document).where(Document.id == document_id)` with
`scalar_one_or_none()`. -/
def findDocument (st : ServerState) (document_id : Nat) : Option Document :=
  (selectDocuments st).find? (fun d => d.id == document_id)

/-- Route `GET /documents/{id}` (lines 82–95 of `routes.py`). -/
def get_document (st : ServerState) (document_id : Nat) :
    Except HttpError DocumentOut :=
  match findDocument st document_id with
  | none => .error ⟨404, "Document not found"⟩
  | some doc => .ok (DocumentOut.ofDocument doc)

/-- The `FileResponse` of the download route: the bytes streamed from
`stored_path`, the suggested save name, and the media type. -/
structure FileResponse where
  body : Bytes
  filename : String
  media_type : String
deriving Repr, DecidableEq

/-- Route `GET /documents/{id}/download` (lines 98–120 of `routes.py`). -/
def download_document (st : ServerState) (document_id : Nat) :
    Except HttpError FileResponse :=
  match findDocument st document_id with
  | none => .error ⟨404, "Document not found"⟩
  | some doc =>
    match getBlob st.disk doc.stored_path with
    | none => .error ⟨404, "Stored file not found on disk"⟩
    | some data => .ok ⟨data, doc.original_filename, "application/octet-stream"⟩

/-- The disk after the blob writes of `files`, writes starting at clock
reading `idx` — the frame left behind by a batch prefix. -/
def writeAll (clock : Nat → String) (idx : Nat) (disk : List Blob) :
    List UploadFile → List Blob
  | [] => disk
  | f :: rest =>
    writeAll clock (idx + 1)
      (putBlob disk (genStoredPath (clock idx) f.filename) f.contents) rest

/-! ### Arithmetic characterization of the size check -/

theorem fileSizeMB_le_iff (size maxMB : Nat) :
    fileSizeMB size ≤ (maxMB : Rat) ↔ size ≤ maxMB * 1048576 := by
  rw [fileSizeMB, div_le_iff₀ (by norm_num : (0 : Rat) < 1024 * 1024)]
  rw [show ((1024 : Rat) * 1024) = ((1048576 : Nat) : Rat) by norm_num]
  rw [← Nat.cast_mul, Nat.cast_le]

theorem lt_fileSizeMB_iff (size maxMB : Nat) :
    (maxMB : Rat) < fileSizeMB size ↔ maxMB * 1048576 < size := by
  rw [← not_le, fileSizeMB_le_iff, not_le]

/-! ### Characterization of `validateFile` -/

theorem validateFile_eq_none_iff (maxMB : Nat) (allowed : List String)
    (f : UploadFile) :
    validateFile maxMB allowed f = none ↔
      f.content_type ∈ allowed ∧ f.contents.length ≤ maxMB * 1048576 := by
  unfold validateFile
  by_cases hct : f.content_type ∈ allowed
  · rw [if_neg (by simpa using hct)]
    rcases le_or_lt (fileSizeMB f.contents.length) (maxMB : Rat) with h | h
    · rw [if_neg (not_lt.mpr h)]
      simp [hct, (fileSizeMB_le_iff f.contents.length maxMB).mp h]
    · rw [if_pos h]
      simp [hct]
      rw [← lt_fileSizeMB_iff]
      exact h
  · rw [if_pos hct]
    simp [hct]

theorem validateFile_type_not_allowed (maxMB : Nat) (allowed : List String)
    (f : UploadFile) (h : f.content_type ∉ allowed) :
    validateFile maxMB allowed f =
      some ⟨400, "Unsupported file type: " ++ f.content_type ++
        ". Only PDF is allowed."⟩ := by
  unfold validateFile
  rw [if_pos h]

theorem validateFile_too_large (maxMB : Nat) (allowed : List String)
    (f : UploadFile) (hct : f.content_type ∈ allowed)
    (h : maxMB * 1048576 < f.contents.length) :
    validateFile maxMB allowed f =
      some ⟨400, "File " ++ f.filename ++ " is too large (" ++
        fmt2 (fileSizeMB f.contents.length) ++ " MB). Max allowed is " ++
        toString maxMB ++ " MB."⟩ := by
  unfold validateFile
  rw [if_neg (by simpa using hct), if_pos ((lt_fileSizeMB_iff _ _).mpr h)]

theorem validateFile_ok (maxMB : Nat) (allowed : List String) (f : UploadFile)
    (hct : f.content_type ∈ allowed)
    (hsz : f.contents.length ≤ maxMB * 1048576) :
    validateFile maxMB allowed f = none :=
  (validateFile_eq_none_iff maxMB allowed f).mpr ⟨hct, hsz⟩

/-! ### Blob store lemmas -/

theorem getBlob_putBlob (disk : List Blob) (path : String) (data : Bytes) :
    getBlob (putBlob disk path data) path = some data := by
  unfold getBlob putBlob
  rw [List.find?_append]
  have hnone : (disk.filter (fun b => b.path != path)).find?
      (fun b => b.path == path) = none := by
    rw [List.find?_eq_none]
    intro b hb
    have hmem := (List.mem_filter.mp hb).2
    simp only [bne_iff_ne, ne_eq] at hmem
    simp [hmem]
  rw [hnone]
  simp [List.find?]

/-! ### Unfolding lemmas for the upload loop -/

theorem uploadLoop_nil (maxMB : Nat) (allowed : List String)
    (clock : Nat → String) (rowClock : Nat → Nat) (idx : Nat)
    (disk : List Blob) (pending : List Document) (nextId : Nat)
    (saved : List Nat) :
    uploadLoop maxMB allowed clock rowClock idx [] disk pending nextId saved =
      ⟨disk, pending, nextId, saved, none⟩ := rfl

theorem uploadLoop_cons_err {maxMB : Nat} {allowed : List String}
    {clock : Nat → String} {rowClock : Nat → Nat} {idx : Nat}
    {f : UploadFile} {rest : List UploadFile} {disk : List Blob}
    {pending : List Document} {nextId : Nat} {saved : List Nat}
    {e : HttpError} (h : validateFile maxMB allowed f = some e) :
    uploadLoop maxMB allowed clock rowClock idx (f :: rest) disk pending
      nextId saved = ⟨disk, pending, nextId, saved, some e⟩ := by
  conv_lhs => rw [uploadLoop]
  rw [h]

theorem uploadLoop_cons_ok {maxMB : Nat} {allowed : List String}
    {clock : Nat → String} {rowClock : Nat → Nat} {idx : Nat}
    {f : UploadFile} {rest : List UploadFile} {disk : List Blob}
    {pending : List Document} {nextId : Nat} {saved : List Nat}
    (h : validateFile maxMB allowed f = none) :
    uploadLoop maxMB allowed clock rowClock idx (f :: rest) disk pending
      nextId saved =
    uploadLoop maxMB allowed clock rowClock (idx + 1) rest
      (putBlob disk (genStoredPath (clock idx) f.filename) f.contents)
      (pending ++ [⟨nextId, f.filename,
        genStoredPath (clock idx) f.filename, rowClock idx⟩])
      (nextId + 1) (saved ++ [nextId]) := by
  conv_lhs => rw [uploadLoop]
  rw [h]

/-- When every file of the batch front `pre` validates and `bad` is then
rejected, the loop stops with `bad`'s exception; the disk holds the
writes of `pre`, and the id sequence advanced once per file of `pre`. -/
theorem uploadLoop_err_frame (maxMB : Nat) (allowed : List String)
    (clock : Nat → String) (rowClock : Nat → Nat)
    (pre : List UploadFile) (bad : UploadFile) (rest : List UploadFile)
    (e : HttpError) :
    (∀ f ∈ pre, validateFile maxMB allowed f = none) →
    validateFile maxMB allowed bad = some e →
    ∀ idx disk pending nextId saved, ∃ pending2 saved2,
      uploadLoop maxMB allowed clock rowClock idx (pre ++ bad :: rest) disk
        pending nextId saved =
        ⟨writeAll clock idx disk pre, pending2, nextId + pre.length, saved2,
          some e⟩ := by
  induction pre with
  | nil =>
    intro _ hbad idx disk pending nextId saved
    refine ⟨pending, saved, ?_⟩
    rw [List.nil_append, uploadLoop_cons_err hbad]
    simp [writeAll]
  | cons f fs ih =>
    intro hpre hbad idx disk pending nextId saved
    have hf : validateFile maxMB allowed f = none := hpre f (by simp)
    rw [List.cons_append, uploadLoop_cons_ok hf]
    obtain ⟨p2, s2, hh⟩ := ih (fun g hg => hpre g (by simp [hg])) hbad
      (idx + 1)
      (putBlob disk (genStoredPath (clock idx) f.filename) f.contents)
      (pending ++ [⟨nextId, f.filename,
        genStoredPath (clock idx) f.filename, rowClock idx⟩])
      (nextId + 1) (saved ++ [nextId])
    refine ⟨p2, s2, ?_⟩
    rw [hh, show nextId + 1 + fs.length = nextId + (f :: fs).length by
      rw [List.length_cons]; omega]
    rfl

/-! ### The spec's 5 MB / 25 MB batch scenario -/

/-- File `"a.pdf"`, 5 MB of `application/pdf` content. -/
def aFile : UploadFile :=
  ⟨"a.pdf", "application/pdf", List.replicate (5 * 1048576) 0⟩

/-- File `"b.pdf"`, 25 MB of declared `application/pdf` content. -/
def bFile : UploadFile :=
  ⟨"b.pdf", "application/pdf", List.replicate (25 * 1048576) 0⟩

theorem aFile_valid :
    validateFile MAX_FILE_SIZE_MB ALLOWED_CONTENT_TYPES aFile = none := by
  apply validateFile_ok
  · rw [show aFile.content_type = "application/pdf" from rfl]
    simp [ALLOWED_CONTENT_TYPES]
  · rw [show aFile.contents = List.replicate (5 * 1048576) 0 from rfl,
      List.length_replicate]
    norm_num [MAX_FILE_SIZE_MB]

theorem bFile_too_large :
    validateFile MAX_FILE_SIZE_MB ALLOWED_CONTENT_TYPES bFile =
      some ⟨400, "File b.pdf is too large (25.00 MB). Max allowed is 20 MB."⟩ := by
  rw [validateFile_too_large MAX_FILE_SIZE_MB ALLOWED_CONTENT_TYPES bFile
    (by rw [show bFile.content_type = "application/pdf" from rfl]
        simp [ALLOWED_CONTENT_TYPES])
    (by rw [show bFile.contents = List.replicate (25 * 1048576) 0 from rfl,
          List.length_replicate]
        norm_num [MAX_FILE_SIZE_MB])]
  rw [show bFile.contents.length = 26214400 by
    rw [show bFile.contents = List.replicate (25 * 1048576) 0 from rfl,
      List.length_replicate]]
  rw [show fmt2 (fileSizeMB 26214400) = "25.00" from by with_unfolding_all rfl]
  rw [show bFile.filename = "b.pdf" from rfl]
  rfl

/-- The full effect of uploading the `[a.pdf (5 MB), b.pdf (25 MB)]`
batch on any server state: the request fails naming `b.pdf`, the blob of
`a.pdf` is on disk, the committed table is untouched (the flushed row of
`a.pdf` was rolled back with the uncommitted session), and the id
sequence advanced once. -/
theorem scenario_upload_eq (clock : Nat → String) (rowClock : Nat → Nat)
    (st : ServerState) :
    upload_documents clock rowClock [aFile, bFile] st =
      (.error ⟨400, "File b.pdf is too large (25.00 MB). Max allowed is 20 MB."⟩,
       ⟨st.committed,
        putBlob st.disk (genStoredPath (clock 0) "a.pdf") aFile.contents,
        st.nextId + 1⟩) := by
  unfold upload_documents
  rw [show ([aFile, bFile].isEmpty) = false from rfl]
  simp only [Bool.false_eq_true, if_false]
  rw [uploadLoop_cons_ok aFile_valid, uploadLoop_cons_err bFile_too_large]
  rw [show aFile.filename = "a.pdf" from rfl]

/-! ### Claims -/

/-- C1 (amended): in a batch upload where earlier files were validated,
stored and flushed and a later file fails validation, the request
reports the failure, and the earlier files' blobs remain on disk as
orphans — but their metadata rows are NOT committed (the unit of work is
rolled back with the session): after uploading
[a.pdf (5 MB, application/pdf), b.pdf (25 MB, application/pdf)] with
ceiling 20 MB, the request reports b.pdf "too large (25.00 MB)", the
bytes of a.pdf are on disk, and a subsequent list() is exactly what it
was before the batch — neither a.pdf nor b.pdf appears in it. -/
theorem C1_batch_failure_rolls_back_metadata (clock : Nat → String)
    (rowClock : Nat → Nat) (st : ServerState) :
    (upload_documents clock rowClock [aFile, bFile] st).fst =
      .error ⟨400, "File b.pdf is too large (25.00 MB). Max allowed is 20 MB."⟩ ∧
    list_documents (upload_documents clock rowClock [aFile, bFile] st).snd =
      list_documents st ∧
    getBlob (upload_documents clock rowClock [aFile, bFile] st).snd.disk
      (genStoredPath (clock 0) "a.pdf") = some aFile.contents := by
  rw [scenario_upload_eq]
  exact ⟨rfl, rfl, getBlob_putBlob _ _ _⟩

/-- C1 counterexample: at the claim's own concrete input — the batch
[a.pdf (5 MB, application/pdf), b.pdf (25 MB, application/pdf)] with
ceiling 20 MB, uploaded into an empty store — the request does report
the failure, but a.pdf does NOT appear in a subsequent list(): the
listing of the resulting state has no entry named a.pdf, contradicting
the claimed "every earlier stored-and-recorded file remains
committed". -/
theorem C1_counterexample :
    (upload_documents (fun n => toString n) (fun _ => 0) [aFile, bFile]
      ⟨[], [], 1⟩).fst =
      .error ⟨400, "File b.pdf is too large (25.00 MB). Max allowed is 20 MB."⟩ ∧
    (list_documents (upload_documents (fun n => toString n) (fun _ => 0)
      [aFile, bFile] ⟨[], [], 1⟩).snd).any
      (fun d => d.original_filename == "a.pdf") = false := by
  rw [scenario_upload_eq]
  exact ⟨rfl, rfl⟩

/-- C5: if files 1..i of a batch were validated, written to the blob
store and flushed to the session, and file i+1 then fails validation,
the request terminates with that error without ever committing the unit
of work: the committed metadata table is left exactly as it was, while
the disk keeps the blobs written for files 1..i. -/
theorem C5_failed_batch_frame (clock : Nat → String) (rowClock : Nat → Nat)
    (st : ServerState) (pre : List UploadFile) (bad : UploadFile)
    (rest : List UploadFile) (e : HttpError)
    (hpre : ∀ f ∈ pre,
      validateFile MAX_FILE_SIZE_MB ALLOWED_CONTENT_TYPES f = none)
    (hbad : validateFile MAX_FILE_SIZE_MB ALLOWED_CONTENT_TYPES bad = some e) :
    (upload_documents clock rowClock (pre ++ bad :: rest) st).fst = .error e ∧
    (upload_documents clock rowClock (pre ++ bad :: rest) st).snd.committed =
      st.committed ∧
    (upload_documents clock rowClock (pre ++ bad :: rest) st).snd.disk =
      writeAll clock 0 st.disk pre := by
  obtain ⟨p2, s2, hh⟩ := uploadLoop_err_frame MAX_FILE_SIZE_MB
    ALLOWED_CONTENT_TYPES clock rowClock pre bad rest e hpre hbad 0 st.disk []
    st.nextId []
  have hne : (pre ++ bad :: rest).isEmpty = false := by cases pre <;> rfl
  simp only [upload_documents, hne, Bool.false_eq_true, if_false]
  rw [hh]
  exact ⟨rfl, rfl, rfl⟩

/-- C5 witness: a concrete two-file batch — a tiny valid PDF followed by
a text file that fails validation — leaves the committed table unchanged
and the tiny PDF's blob on disk. -/
theorem C5_witness :
    (∀ f ∈ [(⟨"ok.pdf", "application/pdf", [37]⟩ : UploadFile)],
      validateFile MAX_FILE_SIZE_MB ALLOWED_CONTENT_TYPES f = none) ∧
    (validateFile MAX_FILE_SIZE_MB ALLOWED_CONTENT_TYPES
      ⟨"no.txt", "text/plain", [65]⟩ =
      some ⟨400, "Unsupported file type: text/plain. Only PDF is allowed."⟩) ∧
    ((upload_documents (fun n => toString n) (fun _ => 0)
        ([⟨"ok.pdf", "application/pdf", [37]⟩] ++
          (⟨"no.txt", "text/plain", [65]⟩ : UploadFile) :: [])
        ⟨[], [], 1⟩).fst =
      .error ⟨400, "Unsupported file type: text/plain. Only PDF is allowed."⟩ ∧
    (upload_documents (fun n => toString n) (fun _ => 0)
        ([⟨"ok.pdf", "application/pdf", [37]⟩] ++
          (⟨"no.txt", "text/plain", [65]⟩ : UploadFile) :: [])
        ⟨[], [], 1⟩).snd.committed = ([] : List Document) ∧
    (upload_documents (fun n => toString n) (fun _ => 0)
        ([⟨"ok.pdf", "application/pdf", [37]⟩] ++
          (⟨"no.txt", "text/plain", [65]⟩ : UploadFile) :: [])
        ⟨[], [], 1⟩).snd.disk =
      writeAll (fun n => toString n) 0 ([] : List Blob)
        [⟨"ok.pdf", "application/pdf", [37]⟩]) := by
  refine ⟨?_, ?_, ?_⟩
  · intro f hf
    simp only [List.mem_singleton] at hf
    subst hf
    exact validateFile_ok _ _ _ (by simp [ALLOWED_CONTENT_TYPES])
      (by norm_num [MAX_FILE_SIZE_MB])
  · exact validateFile_type_not_allowed _ _ _ (by simp [ALLOWED_CONTENT_TYPES])
  · exact C5_failed_batch_frame (fun n => toString n) (fun _ => 0)
      ⟨[], [], 1⟩ [⟨"ok.pdf", "application/pdf", [37]⟩]
      ⟨"no.txt", "text/plain", [65]⟩ []
      ⟨400, "Unsupported file type: text/plain. Only PDF is allowed."⟩
      (by
        intro f hf
        simp only [List.mem_singleton] at hf
        subst hf
        exact validateFile_ok _ _ _ (by simp [ALLOWED_CONTENT_TYPES])
          (by norm_num [MAX_FILE_SIZE_MB]))
      (validateFile_type_not_allowed _ _ _ (by simp [ALLOWED_CONTENT_TYPES]))

/-- C9 counterexample: the query behind list() (`select(Document)`,
line 77 of `routes.py`) has no ORDER BY, so on a store whose committed
table is [id 1, id 2] the database may admissibly serve [id 2, id 1] —
and the response is then NOT the insertion-ordered sequence: the claimed
"insertion order" is a guarantee the code does not make. -/
theorem C9_counterexample :
    dbMayServe ⟨[⟨1, "a.pdf", "storage/t1_a.pdf", 0⟩,
        ⟨2, "b.pdf", "storage/t2_b.pdf", 1⟩], [], 3⟩
      [⟨2, "b.pdf", "storage/t2_b.pdf", 1⟩,
        ⟨1, "a.pdf", "storage/t1_a.pdf", 0⟩] ∧
    list_documents_served [⟨2, "b.pdf", "storage/t2_b.pdf", 1⟩,
        ⟨1, "a.pdf", "storage/t1_a.pdf", 0⟩] ≠
      (⟨[⟨1, "a.pdf", "storage/t1_a.pdf", 0⟩,
          ⟨2, "b.pdf", "storage/t2_b.pdf", 1⟩], [], 3⟩ :
        ServerState).committed.map DocumentOut.ofDocument := by
  constructor
  · exact List.Perm.swap _ _ _
  · decide

/-- C9 (amended): whatever order the database serves the rows of the
ORDER-BY-less query in (any permutation of the committed table), list()
returns ALL stored documents, one `DocumentOut` per committed row — a
permutation of the insertion-ordered projection, with no ordering
guarantee — and on an empty store its response is necessarily the empty
sequence, not an error. -/
theorem C9_list_all_documents (st : ServerState) (rows : List Document)
    (h : dbMayServe st rows) :
    List.Perm (list_documents_served rows)
      (st.committed.map DocumentOut.ofDocument) ∧
    (st.committed = [] → list_documents_served rows = []) := by
  constructor
  · exact List.Perm.map DocumentOut.ofDocument h
  · intro hnil
    have hperm : List.Perm rows st.committed := h
    rw [hnil] at hperm
    rw [List.Perm.eq_nil hperm]
    rfl

/-- C9 witness: the empty store has only the empty response, and a
two-row store served in reversed order still lists exactly its two
documents. -/
theorem C9_witness :
    (dbMayServe ⟨[], [], 0⟩ [] ∧ list_documents_served [] = []) ∧
    (dbMayServe ⟨[⟨1, "a.pdf", "storage/t1_a.pdf", 0⟩,
        ⟨2, "b.pdf", "storage/t2_b.pdf", 1⟩], [], 3⟩
      [⟨2, "b.pdf", "storage/t2_b.pdf", 1⟩,
        ⟨1, "a.pdf", "storage/t1_a.pdf", 0⟩] ∧
     List.Perm (list_documents_served [⟨2, "b.pdf", "storage/t2_b.pdf", 1⟩,
        ⟨1, "a.pdf", "storage/t1_a.pdf", 0⟩])
      ((⟨[⟨1, "a.pdf", "storage/t1_a.pdf", 0⟩,
          ⟨2, "b.pdf", "storage/t2_b.pdf", 1⟩], [], 3⟩ :
        ServerState).committed.map DocumentOut.ofDocument)) := by
  have h0 : dbMayServe (⟨[], [], 0⟩ : ServerState) [] := List.Perm.refl []
  have h2 : dbMayServe (⟨[⟨1, "a.pdf", "storage/t1_a.pdf", 0⟩,
      ⟨2, "b.pdf", "storage/t2_b.pdf", 1⟩], [], 3⟩ : ServerState)
      [⟨2, "b.pdf", "storage/t2_b.pdf", 1⟩,
        ⟨1, "a.pdf", "storage/t1_a.pdf", 0⟩] := List.Perm.swap _ _ _
  exact ⟨⟨h0, (C9_list_all_documents ⟨[], [], 0⟩ [] h0).2 rfl⟩,
    ⟨h2, (C9_list_all_documents _ _ h2).1⟩⟩

/-- C4: a file rejected by validation produces zero side effects —
validation runs before any byte reaches the blob store: when the file at
the point of rejection is reached (here stated at the head of the batch,
where no earlier effects intervene), the request fails with the
validation error and the server state — blob store, committed metadata
and id sequence — is exactly unchanged. -/
theorem C4_rejected_file_zero_effects (clock : Nat → String)
    (rowClock : Nat → Nat) (st : ServerState) (f : UploadFile)
    (rest : List UploadFile) (e : HttpError)
    (hbad : validateFile MAX_FILE_SIZE_MB ALLOWED_CONTENT_TYPES f = some e) :
    upload_documents clock rowClock (f :: rest) st = (.error e, st) := by
  simp only [upload_documents, List.isEmpty_cons, Bool.false_eq_true, if_false]
  rw [uploadLoop_cons_err hbad]

/-- C4 witness: a rejected text file adds nothing anywhere. -/
theorem C4_witness :
    (validateFile MAX_FILE_SIZE_MB ALLOWED_CONTENT_TYPES
      ⟨"x.txt", "text/plain", [65]⟩ =
      some ⟨400, "Unsupported file type: text/plain. Only PDF is allowed."⟩) ∧
    upload_documents (fun _ => "t") (fun _ => 0)
      [⟨"x.txt", "text/plain", [65]⟩] ⟨[], [], 1⟩ =
      (.error ⟨400, "Unsupported file type: text/plain. Only PDF is allowed."⟩,
       ⟨[], [], 1⟩) := by
  have hv : validateFile MAX_FILE_SIZE_MB ALLOWED_CONTENT_TYPES
      (⟨"x.txt", "text/plain", [65]⟩ : UploadFile) =
      some ⟨400, "Unsupported file type: text/plain. Only PDF is allowed."⟩ :=
    validateFile_type_not_allowed _ _ _ (by simp [ALLOWED_CONTENT_TYPES])
  exact ⟨hv, C4_rejected_file_zero_effects (fun _ => "t") (fun _ => 0)
    ⟨[], [], 1⟩ _ [] _ hv⟩

/-- Heads of appended strings: a string starting with character `c`
still starts with `c` after appending. -/
theorem data_head_append (s t : String) (c : Char)
    (h : s.data.head? = some c) : (s ++ t).data.head? = some c := by
  rw [String.data_append]
  cases hd : s.data with
  | nil => rw [hd] at h; exact absurd h (by simp)
  | cons x xs =>
    rw [hd] at h
    simp only [List.head?_cons, Option.some.injEq] at h
    simp [h]

/-- Two strings with different first characters differ. -/
theorem string_head_ne {s t : String} (hs : s.data.head? = some 'F')
    (ht : t.data.head? = some 'U') : s ≠ t := by
  intro h
  rw [h, ht] at hs
  exact absurd hs (by decide)

/-- The size-rejection message starts with 'F'. -/
theorem size_detail_head (n s1 s2 s3 m t : String) :
    ("File " ++ n ++ s1 ++ s2 ++ s3 ++ m ++ t).data.head? = some 'F' := by
  exact data_head_append _ _ _ (data_head_append _ _ _ (data_head_append _ _ _
    (data_head_append _ _ _ (data_head_append _ _ _
      (data_head_append _ _ _ rfl)))))

/-- The type-rejection message starts with 'U'. -/
theorem type_detail_head (c t : String) :
    ("Unsupported file type: " ++ c ++ t).data.head? = some 'U' := by
  exact data_head_append _ _ _ (data_head_append _ _ _ rfl)

/-- C7: validation rejects with the unsupported-type error exactly when
the declared content type is not a member of the allowed content types,
and the rejection reason names the offending type. -/
theorem C7_content_type_rule (maxMB : Nat) (allowed : List String)
    (f : UploadFile) :
    validateFile maxMB allowed f =
      some ⟨400, "Unsupported file type: " ++ f.content_type ++
        ". Only PDF is allowed."⟩ ↔ f.content_type ∉ allowed := by
  constructor
  · intro h
    by_contra hct
    rcases le_or_lt (fileSizeMB f.contents.length) ((maxMB : Rat)) with hsz | hsz
    · rw [validateFile_ok _ _ _ hct ((fileSizeMB_le_iff _ _).mp hsz)] at h
      exact Option.noConfusion h
    · rw [validateFile_too_large _ _ _ hct ((lt_fileSizeMB_iff _ _).mp hsz)]
        at h
      have hdet := congrArg (fun o => (o.getD ⟨0, ""⟩).detail) h
      simp only [Option.getD_some] at hdet
      exact string_head_ne (size_detail_head _ _ _ _ _ _)
        (type_detail_head _ _) hdet
  · exact validateFile_type_not_allowed maxMB allowed f

/-- C7 witness: a text file is rejected with the message naming
`text/plain`. -/
theorem C7_witness :
    validateFile 20 ["application/pdf"]
      ⟨"x.txt", "text/plain", [65]⟩ =
      some ⟨400, "Unsupported file type: " ++ "text/plain" ++
        ". Only PDF is allowed."⟩ :=
  (C7_content_type_rule 20 ["application/pdf"]
    ⟨"x.txt", "text/plain", [65]⟩).mpr (by simp)

/-- C8: download resolves metadata first — an unknown id yields a 404
client error "Document not found"; a known id whose bytes are absent
from the blob store yields a 404 with the distinct message "Stored file
not found on disk"; and every failure of the download route is a 404,
never a server fault. -/
theorem C8_download_not_found (st : ServerState) (document_id : Nat) :
    (findDocument st document_id = none →
      download_document st document_id =
        .error ⟨404, "Document not found"⟩) ∧
    (∀ doc, findDocument st document_id = some doc →
      getBlob st.disk doc.stored_path = none →
      download_document st document_id =
        .error ⟨404, "Stored file not found on disk"⟩) ∧
    ("Document not found" ≠ "Stored file not found on disk") ∧
    (∀ e, download_document st document_id = .error e → e.status = 404) := by
  refine ⟨?_, ?_, by decide, ?_⟩
  · intro h
    simp [download_document, h]
  · intro doc h1 h2
    simp [download_document, h1, h2]
  · intro e he
    unfold download_document at he
    split at he
    · simp only [Except.error.injEq] at he
      rw [← he]
    · split at he
      · simp only [Except.error.injEq] at he
        rw [← he]
      · exact absurd he (by simp)

/-- C8 witness: on a store holding one document whose blob is missing,
an unknown id gives "Document not found" and the known id gives "Stored
file not found on disk". -/
theorem C8_witness :
    (findDocument ⟨[⟨1, "f.pdf", "storage/t_f.pdf", 0⟩], [], 5⟩ 2 = none ∧
     download_document ⟨[⟨1, "f.pdf", "storage/t_f.pdf", 0⟩], [], 5⟩ 2 =
       .error ⟨404, "Document not found"⟩) ∧
    (findDocument ⟨[⟨1, "f.pdf", "storage/t_f.pdf", 0⟩], [], 5⟩ 1 =
       some ⟨1, "f.pdf", "storage/t_f.pdf", 0⟩ ∧
     download_document ⟨[⟨1, "f.pdf", "storage/t_f.pdf", 0⟩], [], 5⟩ 1 =
       .error ⟨404, "Stored file not found on disk"⟩) := by
  have h1 : findDocument ⟨[⟨1, "f.pdf", "storage/t_f.pdf", 0⟩], [], 5⟩ 2 =
      none := by decide
  have h2 : findDocument ⟨[⟨1, "f.pdf", "storage/t_f.pdf", 0⟩], [], 5⟩ 1 =
      some ⟨1, "f.pdf", "storage/t_f.pdf", 0⟩ := by decide
  exact ⟨⟨h1, (C8_download_not_found _ 2).1 h1⟩,
    ⟨h2, (C8_download_not_found _ 1).2.1 _ h2 rfl⟩⟩

/-- C6: with an allowed content type, validation rejects exactly when
`size_in_bytes / (1024*1024) > max_size_mb` — equivalently exactly when
`size_in_bytes > max_size_mb * 1048576`, so a file whose size in MB
equals the ceiling exactly is accepted — and the rejection reason
carries the size formatted to two decimal places together with the
configured ceiling. -/
theorem C6_size_rule (maxMB : Nat) (allowed : List String) (f : UploadFile)
    (hct : f.content_type ∈ allowed) :
    ((validateFile maxMB allowed f).isSome ↔
      (maxMB : Rat) < fileSizeMB f.contents.length) ∧
    ((maxMB : Rat) < fileSizeMB f.contents.length ↔
      maxMB * 1048576 < f.contents.length) ∧
    (maxMB * 1048576 < f.contents.length →
      validateFile maxMB allowed f = some ⟨400,
        "File " ++ f.filename ++ " is too large (" ++
        fmt2 (fileSizeMB f.contents.length) ++ " MB). Max allowed is " ++
        toString maxMB ++ " MB."⟩) ∧
    (f.contents.length = maxMB * 1048576 →
      validateFile maxMB allowed f = none) := by
  refine ⟨?_, lt_fileSizeMB_iff _ _, validateFile_too_large _ _ _ hct, ?_⟩
  · constructor
    · intro h
      by_contra hlt
      rw [not_lt] at hlt
      rw [validateFile_ok _ _ _ hct ((fileSizeMB_le_iff _ _).mp hlt)] at h
      exact absurd h (by simp)
    · intro h
      rw [validateFile_too_large _ _ _ hct ((lt_fileSizeMB_iff _ _).mp h)]
      rfl
  · intro h
    exact validateFile_ok _ _ _ hct (le_of_eq h)

/-- C6 witness: ceiling 0; a one-byte file is over the ceiling, while a
zero-byte file sits exactly at the ceiling and is accepted. -/
theorem C6_witness :
    (((validateFile 0 ["application/pdf"]
        ⟨"b.pdf", "application/pdf", [66]⟩).isSome ↔
      (0 : Rat) < fileSizeMB 1) ∧
     (0 * 1048576 < 1 →
      validateFile 0 ["application/pdf"] ⟨"b.pdf", "application/pdf", [66]⟩ =
        some ⟨400, "File " ++ "b.pdf" ++ " is too large (" ++
          fmt2 (fileSizeMB 1) ++ " MB). Max allowed is " ++
          toString 0 ++ " MB."⟩)) ∧
    (([] : Bytes).length = 0 * 1048576 →
      validateFile 0 ["application/pdf"]
        ⟨"e.pdf", "application/pdf", []⟩ = none) ∧
    validateFile 0 ["application/pdf"]
      ⟨"e.pdf", "application/pdf", []⟩ = none := by
  have h1 := C6_size_rule 0 ["application/pdf"]
    ⟨"b.pdf", "application/pdf", [66]⟩ (by simp)
  have h2 := C6_size_rule 0 ["application/pdf"]
    ⟨"e.pdf", "application/pdf", []⟩ (by simp)
  exact ⟨⟨h1.1, h1.2.2.1⟩, h2.2.2.2, h2.2.2.2 rfl⟩

/-- Splitting a character list at the first separator is unambiguous
when neither left part contains the separator. -/
theorem append_sep_inj {a b n1 n2 : List Char}
    (ha : '_' ∉ a) (hb : '_' ∉ b)
    (h : a ++ '_' :: n1 = b ++ '_' :: n2) : a = b ∧ n1 = n2 := by
  induction a generalizing b with
  | nil =>
    cases b with
    | nil => simpa using h
    | cons c cs =>
      simp only [List.nil_append, List.cons_append, List.cons.injEq] at h
      exact absurd (by rw [h.1]; exact List.mem_cons_self c cs) hb
  | cons c cs ih =>
    cases b with
    | nil =>
      simp only [List.cons_append, List.nil_append, List.cons.injEq] at h
      exact absurd (by rw [← h.1]; exact List.mem_cons_self c cs) ha
    | cons d ds =>
      simp only [List.cons_append, List.cons.injEq] at h
      obtain ⟨rfl, h2⟩ := h
      have hrec := ih (fun hm => ha (List.mem_cons_of_mem _ hm))
        (fun hm => hb (List.mem_cons_of_mem _ hm)) h2
      exact ⟨by rw [hrec.1], hrec.2⟩

/-- C2 (amended): the generated storage reference determines the
timestamp string and the original filename uniquely — provided the
timestamp string contains no underscore, which holds for every
`str(float)` — so the references of two puts differ whenever their
timestamp readings differ or their filenames differ.  Distinctness of
references therefore rests entirely on the clock never returning the
same microsecond value twice, which nothing in the code enforces for two
concurrent (or fast successive) puts: with equal timestamps and equal
names, the references coincide (see the counterexample). -/
theorem C2_reference_injective (t1 n1 t2 n2 : String)
    (h1 : '_' ∉ t1.data) (h2 : '_' ∉ t2.data)
    (h : genStoredPath t1 n1 = genStoredPath t2 n2) : t1 = t2 ∧ n1 = n2 := by
  have hd := congrArg String.data h
  simp only [genStoredPath, String.data_append, List.append_assoc] at hd
  have hd2 := List.append_cancel_left hd
  simp only [List.singleton_append] at hd2
  have hinj := append_sep_inj h1 h2 hd2
  exact ⟨String.ext hinj.1, String.ext hinj.2⟩

/-- C2 witness: underscore-free timestamp strings, and the injectivity
instantiated at a concrete reference. -/
theorem C2_witness :
    ('_' ∉ "1728000000.000001".data) ∧
    ("1728000000.000001" = "1728000000.000001" ∧ "a.pdf" = "a.pdf") :=
  ⟨by decide, C2_reference_injective "1728000000.000001" "a.pdf"
    "1728000000.000001" "a.pdf" (by decide) (by decide) rfl⟩

/-- The upload of two small files both named `a.pdf` in one request,
during which both `datetime.utcnow().timestamp()` readings fall in the
same microsecond — the situation the claim says cannot produce equal
references. -/
def sameStampUpload : Except HttpError UploadResult × ServerState :=
  upload_documents (fun _ => "1728000000.000001") (fun _ => 0)
    [⟨"a.pdf", "application/pdf", [1]⟩, ⟨"a.pdf", "application/pdf", [2]⟩]
    ⟨[], [], 1⟩

/-- C2 counterexample: two puts of files with identical original
filenames whose clock readings coincide (possible under concurrency —
`utcnow` is not strictly monotonic per call) produce the SAME storage
reference: both committed rows carry `storage/1728000000.000001_a.pdf`,
the second blob write overwrites the first, and downloading document 1
returns document 2's bytes. -/
theorem C2_counterexample :
    sameStampUpload.fst = .ok ⟨[1, 2], 2⟩ ∧
    sameStampUpload.snd.committed.map Document.stored_path =
      ["storage/1728000000.000001_a.pdf", "storage/1728000000.000001_a.pdf"] ∧
    download_document sameStampUpload.snd 1 =
      .ok ⟨[2], "a.pdf", "application/octet-stream"⟩ := by
  refine ⟨?_, ?_, ?_⟩ <;> with_unfolding_all rfl

/-- C3: round trip — uploading a single file whose declared content type
is in the allowlist and whose size is at most the configured ceiling
succeeds, assigning the next id, and downloading that id returns exactly
the uploaded bytes, with the original filename as the suggested save
name and the generic binary media type.  (The well-formedness hypothesis
says the id sequence is ahead of every committed row, which every state
reachable by this embedding satisfies.) -/
theorem C3_round_trip (clock : Nat → String) (rowClock : Nat → Nat)
    (st : ServerState) (f : UploadFile)
    (hwf : ∀ d ∈ st.committed, d.id < st.nextId)
    (hct : f.content_type ∈ ALLOWED_CONTENT_TYPES)
    (hsz : f.contents.length ≤ MAX_FILE_SIZE_MB * 1048576) :
    (upload_documents clock rowClock [f] st).fst = .ok ⟨[st.nextId], 1⟩ ∧
    download_document (upload_documents clock rowClock [f] st).snd
      st.nextId = .ok ⟨f.contents, f.filename, "application/octet-stream"⟩ := by
  have hv := validateFile_ok MAX_FILE_SIZE_MB ALLOWED_CONTENT_TYPES f hct hsz
  have hup : upload_documents clock rowClock [f] st =
      (.ok ⟨[st.nextId], 1⟩,
       ⟨st.committed ++ [⟨st.nextId, f.filename,
          genStoredPath (clock 0) f.filename, rowClock 0⟩],
        putBlob st.disk (genStoredPath (clock 0) f.filename) f.contents,
        st.nextId + 1⟩) := by
    simp only [upload_documents, List.isEmpty_cons, Bool.false_eq_true,
      if_false]
    rw [uploadLoop_cons_ok hv, uploadLoop_nil]
    rfl
  rw [hup]
  refine ⟨rfl, ?_⟩
  unfold download_document findDocument selectDocuments
  have hfind : (st.committed ++ [(⟨st.nextId, f.filename,
      genStoredPath (clock 0) f.filename, rowClock 0⟩ : Document)]).find?
      (fun d : Document => d.id == st.nextId) = some ⟨st.nextId, f.filename,
      genStoredPath (clock 0) f.filename, rowClock 0⟩ := by
    rw [List.find?_append]
    have hnone : st.committed.find?
        (fun d : Document => d.id == st.nextId) = none := by
      rw [List.find?_eq_none]
      intro d hd
      simp only [beq_iff_eq]
      exact Nat.ne_of_lt (hwf d hd)
    rw [hnone]
    simp [List.find?]
  rw [hfind]
  dsimp only
  rw [getBlob_putBlob]

/-- C3 witness: a 2-byte PDF uploaded into the empty store downloads
back byte-identical. -/
theorem C3_witness :
    ((⟨"a.pdf", "application/pdf", [37, 80]⟩ : UploadFile).contents.length ≤
      MAX_FILE_SIZE_MB * 1048576) ∧
    (upload_documents (fun _ => "1700.0") (fun _ => 7)
        [⟨"a.pdf", "application/pdf", [37, 80]⟩] ⟨[], [], 1⟩).fst =
      .ok ⟨[1], 1⟩ ∧
    download_document (upload_documents (fun _ => "1700.0") (fun _ => 7)
        [⟨"a.pdf", "application/pdf", [37, 80]⟩] ⟨[], [], 1⟩).snd 1 =
      .ok ⟨[37, 80], "a.pdf", "application/octet-stream"⟩ := by
  have h := C3_round_trip (fun _ => "1700.0") (fun _ => 7) ⟨[], [], 1⟩
    ⟨"a.pdf", "application/pdf", [37, 80]⟩ (by simp)
    (by simp [ALLOWED_CONTENT_TYPES]) (by decide)
  exact ⟨by decide, h.1, h.2⟩

/-- C10: uploading an empty file list is rejected upfront with a 400
client error and the server state (blob store, metadata, id sequence) is
completely untouched. -/
theorem C10_empty_list_rejected (clock : Nat → String)
    (rowClock : Nat → Nat) (st : ServerState) :
    upload_documents clock rowClock [] st =
      (.error ⟨400, "No files uploaded"⟩, st) := rfl

end DocPipeline
